import Mathlib

/-!
Verification of the REAINO demo timeline engine (src/src/App.tsx).

The engine is a deterministic function of an integer demo clock
`t : 0..180`.  This file shallowly embeds the engine's data model and
its per-tick projectors:

* `stageProgress` / `computeStatus` — pure progress and status derivation;
* the agent state projector (`agentUpdate`, `agentProject`);
* the artifact emitter (`artifactStep`);
* the bus event emitter (`pushBus`, `busStep`);
* the KPI projector (`kpiUpdate`, `kpiProject`), over `ℝ` with `Real.sin`
  standing for JavaScript `Math.sin`;
* the deploy gate (`promote`) and full engine state (`EngineState`,
  `applyEffects`, `engineTick`, `resetDemo`).

JavaScript `Math.round` is embedded as `fun x => ⌊x + 1/2⌋` (round half
towards positive infinity), numbers that stay integral/rational in the
source are embedded as `ℕ`/`ℤ`/`ℚ`, and the second-by-second run of the
demo is the trajectory `…At : ℕ → _` that applies each projector at
`t = 0, 1, 2, …` exactly as the React effects fire on every clock change.
-/

/-! ## Basic data model (types from App.tsx) -/

inductive AgentStatus
  | queued | planning | running | needsReview | done | failed
deriving DecidableEq, Repr

inductive Severity
  | info | warn | ok
deriving DecidableEq, Repr

structure Agent where
  id : String
  name : String
  status : AgentStatus
  progress : Int
  outputArtifacts : List String
  logs : List String
deriving DecidableEq, Repr

/-! ## Timeline constants (the `timeline` memo) -/

def promptStart : Nat := 0
def promptEnd : Nat := 14
def specStart : Nat := 6
def specEnd : Nat := 32
def topoStart : Nat := 16
def topoEnd : Nat := 40
def connStart : Nat := 30
def connEnd : Nat := 74
def derStart : Nat := 55
def derEnd : Nat := 95
def kpiStart : Nat := 70
def kpiEnd : Nat := 120
def viewStart : Nat := 95
def viewEnd : Nat := 140
def valStart : Nat := 130
def valEnd : Nat := 160
def deployReady : Nat := 160
def duration : Nat := 180

/-! ## Stage progress and status (`stageProgress`, `computeStatus`) -/

/-- `clamp(x, a, b) = Math.max(a, Math.min(b, x))`. -/
def clampQ (x a b : ℚ) : ℚ := max a (min b x)

/-- JavaScript `Math.round` on a rational: round half towards `+∞`. -/
def jsRoundQ (q : ℚ) : ℤ := ⌊q + 1 / 2⌋

/-- `stageProgress(start, end)` from the agent effect (closure over `t`):
`0` below the window, `100` above it, a rounded clamped linear ramp inside. -/
def stageProgress (t start e : Nat) : Int :=
  if t < start then 0
  else if e < t then 100
  else jsRoundQ (clampQ (((t : ℚ) - start) / ((e : ℚ) - start)) 0 1 * 100)

/-- `computeStatus(p, start, end)` from the agent effect (closure over `t`). -/
def computeStatus (t : Nat) (p : Int) (start e : Nat) : AgentStatus :=
  if t < start then .queued
  else if 0 < p ∧ p < 20 then .planning
  else if 20 ≤ p ∧ p < 95 then .running
  else if 95 ≤ p ∧ t < e then .needsReview
  else if e ≤ t then .done
  else .queued

/-- The per-agent progress: the `if (a.id === …)` chain of the agent
projector, defaulting to the initializer `p = 0`. -/
def progressFor (t : Nat) (id : String) : Int :=
  if id = "spec" then stageProgress t specStart specEnd
  else if id = "topo" then stageProgress t topoStart topoEnd
  else if id = "conn" then stageProgress t connStart connEnd
  else if id = "der" then stageProgress t derStart derEnd
  else if id = "kpi" then stageProgress t kpiStart kpiEnd
  else if id = "view" then stageProgress t viewStart viewEnd
  else if id = "val" then stageProgress t valStart valEnd
  else 0

/-- The per-agent status: the same chain, defaulting to `Queued`. -/
def statusFor (t : Nat) (id : String) : AgentStatus :=
  if id = "spec" then computeStatus t (stageProgress t specStart specEnd) specStart specEnd
  else if id = "topo" then computeStatus t (stageProgress t topoStart topoEnd) topoStart topoEnd
  else if id = "conn" then computeStatus t (stageProgress t connStart connEnd) connStart connEnd
  else if id = "der" then computeStatus t (stageProgress t derStart derEnd) derStart derEnd
  else if id = "kpi" then computeStatus t (stageProgress t kpiStart kpiEnd) kpiStart kpiEnd
  else if id = "view" then computeStatus t (stageProgress t viewStart viewEnd) viewStart viewEnd
  else if id = "val" then computeStatus t (stageProgress t valStart valEnd) valStart valEnd
  else .queued

/-! ## Agent log beats (`shouldLog`, the log line table, the 20-entry cap) -/

/-- The `shouldLog` condition of the agent projector. -/
def shouldLog (id : String) (t : Nat) : Bool :=
  (id == "spec" && ([10, 18, 26, 32] : List Nat).contains t) ||
  (id == "conn" && ([40, 52, 68, 74] : List Nat).contains t) ||
  (id == "kpi" && ([76, 90, 108, 120] : List Nat).contains t) ||
  (id == "view" && ([104, 118, 132, 140] : List Nat).contains t) ||
  (id == "val" && ([136, 148, 160] : List Nat).contains t)

/-- `String(n).padStart(2, "0")` for the clock values that occur. -/
def pad2 (n : Nat) : String :=
  if n < 10 then "0" ++ toString n else toString n

/-- `formatSec`: `mm:ss` rendering of a second count. -/
def formatSec (s : Nat) : String :=
  pad2 (s / 60) ++ ":" ++ pad2 (s % 60)

/-- The nested-conditional log line table of the agent projector. -/
def logLine (id : String) (t : Nat) : String :=
  if id == "spec" then
    if t == 10 then "Parsing prompt → selecting template: CabinetCooling.EC2"
    else if t == 18 then "Creating assets: Fan_A, Fan_B, Cabinet, PLC_Gateway"
    else if t == 26 then "Setting parameters: variable_speed, monthly_kpis=true"
    else "Manifest compiled (draft v1)"
  else if id == "conn" then
    if t == 40 then "Browsing Modbus registers…"
    else if t == 52 then "Binding MQTT faults topic → twin.faults"
    else if t == 68 then "Creating rollups: 1s→1m→1h"
    else "Bindings compiled (draft v1)"
  else if id == "kpi" then
    if t == 76 then "Selecting KPI pack: Energy + Efficiency + Utilization + Risk"
    else if t == 90 then "Defining monthly windows + baselines"
    else if t == 108 then "Adding confidence scoring and thresholds"
    else "KPI pack compiled (draft v1)"
  else if id == "view" then
    if t == 104 then "Generating 3D layout + AR anchors"
    else if t == 118 then "Placing labels: RPM, kW, Status"
    else if t == 132 then "Exporting Web viewer + AR overlay spec"
    else "Views compiled (draft v1)"
  else if id == "val" then
    if t == 136 then "Validating dependencies: bindings→kpis→views"
    else if t == 148 then "PASS: 0 errors, 2 warnings (units normalized)"
    else "Ready for staging deploy"
  else "Log @ " ++ formatSec t

/-- `[...logs, line].slice(-20)`: append, keep the most recent 20. -/
def appendLog (logs : List String) (line : String) : List String :=
  let next := logs ++ [line]
  next.drop (next.length - 20)

/-- One agent's update in the `setAgents` map of the agent projector. -/
def agentUpdate (t : Nat) (a : Agent) : Agent :=
  { a with
    progress := progressFor t a.id
    status := statusFor t a.id
    logs :=
      if shouldLog a.id t then
        appendLog a.logs (formatSec t ++ " • " ++ logLine a.id t)
      else a.logs }

/-- The agent state projector: the whole `setAgents(prev => prev.map …)`. -/
def agentProject (t : Nat) (as : List Agent) : List Agent :=
  as.map (agentUpdate t)

/-- Initial agents (the `useState` initializer). -/
def initAgents : List Agent :=
  [ ⟨"spec", "Spec Agent", .queued, 0, ["manifest"], []⟩,
    ⟨"topo", "Topology Agent", .queued, 0, ["manifest"], []⟩,
    ⟨"conn", "Connector Agent", .queued, 0, ["bindings"], []⟩,
    ⟨"der", "Derived Signal Agent", .queued, 0, ["bindings", "kpis"], []⟩,
    ⟨"kpi", "KPI Agent", .queued, 0, ["kpis"], []⟩,
    ⟨"view", "View Agent", .queued, 0, ["views"], []⟩,
    ⟨"val", "Validation Agent", .queued, 0, ["validation"], []⟩ ]

/-- The agent list after the clock has advanced one second at a time from 0
to `t` (the projector effect fires at every clock value, including `t = 0`). -/
def agentsAt : Nat → List Agent
  | 0 => agentProject 0 initAgents
  | n + 1 => agentProject (n + 1) (agentsAt n)

/-! ## Artifact emitter -/

structure DiffLine where
  sev : Severity
  text : String
deriving DecidableEq, Repr

structure Artifact where
  key : String
  label : String
  version : Nat
  lastUpdatedSec : Nat
  summary : String
  diffLines : List DiffLine
deriving DecidableEq, Repr

/-- The artifact store: the record keyed by the five fixed artifact kinds. -/
structure Artifacts where
  manifest : Artifact
  bindings : Artifact
  kpis : Artifact
  views : Artifact
  validation : Artifact
deriving DecidableEq, Repr

/-- Initial artifacts (the `useState` initializer). -/
def initArtifacts : Artifacts where
  manifest := ⟨"manifest", "Twin Manifest", 0, 0, "No manifest yet.",
    [⟨.info, "— awaiting spec compilation —"⟩]⟩
  bindings := ⟨"bindings", "Data Bindings", 0, 0, "No bindings yet.",
    [⟨.info, "— awaiting connector mapping —"⟩]⟩
  kpis := ⟨"kpis", "KPIs Pack", 0, 0, "No KPIs yet.",
    [⟨.info, "— awaiting KPI definitions —"⟩]⟩
  views := ⟨"views", "Views / AR Labels", 0, 0, "No views yet.",
    [⟨.info, "— awaiting view generation —"⟩]⟩
  validation := ⟨"validation", "Validation Report", 0, 0, "Not validated.",
    [⟨.info, "— run validation to deploy —"⟩]⟩

/-- The artifact emission block of the agent/artifact effect: the
`setArtifacts(prev => …)` updater, one conditional bump per threshold. -/
def artifactStep (t : Nat) (A : Artifacts) : Artifacts :=
  let a1 := if t = specEnd then
    { A with manifest :=
      { A.manifest with
        version := A.manifest.version + 1
        lastUpdatedSec := t
        summary := "CabinetCooling.EC2 with Fan_A/Fan_B, PLC gateway, sensors."
        diffLines :=
          [ ⟨.ok, "+ Assets: Fan_A, Fan_B, Cabinet_A, PLC_Gateway"⟩,
            ⟨.ok, "+ Relationships: Motor→Fan, Fan→Airflow→CabinetTemp"⟩,
            ⟨.info, "+ Defaults: variable_speed=true, reporting=monthly"⟩ ] } }
    else A
  let a2 := if t = connEnd then
    { a1 with bindings :=
      { a1.bindings with
        version := a1.bindings.version + 1
        lastUpdatedSec := t
        summary := "Mapped Modbus registers + MQTT faults; created rollups."
        diffLines :=
          [ ⟨.ok, "+ Bind: Fan_A.rpm ← Modbus HR:40021"⟩,
            ⟨.ok, "+ Bind: Fan_A.kW  ← Modbus HR:40031 (normalized)"⟩,
            ⟨.ok, "+ Bind: Cabinet.temp_C ← HR:40110"⟩,
            ⟨.info, "+ Subscribe: MQTT ebmpapst/cabinetA/faults/#"⟩ ] } }
    else a1
  let a3 := if t = derEnd then
    { a2 with bindings :=
      { a2.bindings with
        version := a2.bindings.version + 1
        lastUpdatedSec := t
        summary := "Added derived airflow_est + unit normalization rules."
        diffLines :=
          [ ⟨.ok, "+ Derived: airflow_est ← f(RPM, curve_proxy)"⟩,
            ⟨.warn, "~ Unit rule: kW tags sometimes in W (auto-normalize)"⟩,
            ⟨.info, "+ Quality: flatline/spike detection enabled"⟩ ] } }
    else a2
  let a4 := if t = kpiEnd then
    { a3 with kpis :=
      { a3.kpis with
        version := a3.kpis.version + 1
        lastUpdatedSec := t
        summary := "Energy, efficiency vs curve, utilization, maintenance risk (monthly)."
        diffLines :=
          [ ⟨.ok, "+ KPI: energy_kWh_month ← Σ(kW)*Δt"⟩,
            ⟨.ok, "+ KPI: efficiency_pct ← airflow_est / power (normalized)"⟩,
            ⟨.ok, "+ KPI: utilization_pct ← time_in_band / total"⟩,
            ⟨.info, "+ KPI: risk_pct ← variance(power)+fault_rate proxy"⟩ ] } }
    else a3
  let a5 := if t = viewEnd then
    { a4 with views :=
      { a4.views with
        version := a4.views.version + 1
        lastUpdatedSec := t
        summary := "Web 3D view + AR label overlays (RPM/kW/Status)."
        diffLines :=
          [ ⟨.ok, "+ View: Cabinet_A overview scene"⟩,
            ⟨.ok, "+ AR Label: Fan_A (RPM, kW, Status)"⟩,
            ⟨.ok, "+ AR Label: Fan_B (RPM, kW, Status)"⟩,
            ⟨.info, "+ Anchors: cabinet_faceplate, fan_housing"⟩ ] } }
    else a4
  let a6 := if t = valEnd then
    { a5 with validation :=
      { a5.validation with
        version := a5.validation.version + 1
        lastUpdatedSec := t
        summary := "PASS: 0 errors, 2 warnings (unit normalization)."
        diffLines :=
          [ ⟨.ok, "✓ Schema: manifest/bindings/kpis/views"⟩,
            ⟨.ok, "✓ Dependencies: tags → derived → kpis → overlays"⟩,
            ⟨.warn, "⚠ Warning: kW tag unit inconsistent; normalized to kW"⟩,
            ⟨.warn, "⚠ Warning: vibration missing; risk uses proxy"⟩ ] } }
    else a5
  a6

/-- The artifact store after the clock has advanced one second at a time
from 0 to `t` (the effect fires at every clock value, including `t = 0`). -/
def artifactsAt : Nat → Artifacts
  | 0 => artifactStep 0 initArtifacts
  | n + 1 => artifactStep (n + 1) (artifactsAt n)

/-! ## Bus event emitter -/

inductive BusName
  | modbusTCP | opcUA | mqtt | timescaleDB
deriving DecidableEq, Repr

structure BusEvent where
  t : Nat
  bus : BusName
  sev : Severity
  msg : String
deriving DecidableEq, Repr

/-- `pushBus`: append one event, cap the sequence to the last 70. -/
def pushBus (evt : BusEvent) (prev : List BusEvent) : List BusEvent :=
  let next := prev ++ [evt]
  next.drop (next.length - 70)

/-- The scripted bus activity effect: one conditional `pushBus` per
literal timestamp. -/
def busStep (t : Nat) (prev : List BusEvent) : List BusEvent :=
  let b1 := if t = 2 then
    pushBus ⟨t, .timescaleDB, .info, "Workspace created: ebm-papst/cabinetA"⟩ prev else prev
  let b2 := if t = 8 then
    pushBus ⟨t, .timescaleDB, .ok, "Twin PR branch: draft/v1 created"⟩ b1 else b1
  let b3 := if t = 33 then
    pushBus ⟨t, .modbusTCP, .info, "Connecting to PLC gateway 10.0.2.31:502"⟩ b2 else b2
  let b4 := if t = 38 then
    pushBus ⟨t, .modbusTCP, .ok, "Handshake OK. Reading holding registers…"⟩ b3 else b3
  let b5 := if t = 44 then
    pushBus ⟨t, .modbusTCP, .info, "Discovered tags: RPM_A, RPM_B, kW_A, kW_B, Temp_Cab"⟩ b4 else b4
  let b6 := if t = 52 then
    pushBus ⟨t, .mqtt, .info, "Subscribing: ebmpapst/cabinetA/faults/#"⟩ b5 else b5
  let b7 := if t = 60 then
    pushBus ⟨t, .mqtt, .ok, "Live faults stream online (no active faults)"⟩ b6 else b6
  let b8 := if t = 68 then
    pushBus ⟨t, .timescaleDB, .ok, "Ingest pipeline started (1s sample → 1m rollup)"⟩ b7 else b7
  let b9 := if t = 76 then
    pushBus ⟨t, .timescaleDB, .warn, "Unit check: kW_A appears in W → normalizing"⟩ b8 else b8
  let b10 := if t = 82 then
    pushBus ⟨t, .timescaleDB, .ok, "Derived signal: airflow_est computed from RPM + curve proxy"⟩ b9 else b9
  let b11 := if t = 131 then
    pushBus ⟨t, .timescaleDB, .info, "Running validation suite: bindings + KPI deps + view labels"⟩ b10 else b10
  let b12 := if t = 148 then
    pushBus ⟨t, .timescaleDB, .ok, "Validation passed (0 errors, 2 warnings)"⟩ b11 else b11
  let b13 := if t = 162 then
    pushBus ⟨t, .timescaleDB, .ok, "Ready to deploy: staging candidate v1.0"⟩ b12 else b12
  b13

/-- The bus event sequence after the clock has advanced one second at a
time from 0 to `t`. -/
def busAt : Nat → List BusEvent
  | 0 => busStep 0 []
  | n + 1 => busStep (n + 1) (busAt n)

/-! ## KPI projector

JavaScript floating point numbers and `Math.sin` are embedded as real
numbers and `Real.sin`; `Math.round` as `fun x => ⌊x + 1/2⌋`. -/

inductive Trend
  | up | down | flat
deriving DecidableEq, Repr

structure KPI where
  key : String
  label : String
  unit : Option String
  value : Option ℝ
  target : Option ℝ
  trend : Trend
  confidence : ℝ

/-- `clamp` over the reals. -/
noncomputable def clampR (x a b : ℝ) : ℝ := max a (min b x)

/-- `lerp(a, b, t) = a + (b - a) * t`. -/
noncomputable def lerp (a b t : ℝ) : ℝ := a + (b - a) * t

/-- JavaScript `Math.round` on a real, as a real. -/
noncomputable def jsRoundR (x : ℝ) : ℝ := (⌊x + 1 / 2⌋ : ℤ)

/-- One KPI's update in the `setKpis` map of the KPI projector effect. -/
noncomputable def kpiUpdate (t : Nat) (k : KPI) : KPI :=
  let phase1 : ℝ := clampR (((t : ℝ) - 55) / 40) 0 1
  let phase2 : ℝ := clampR (((t : ℝ) - 95) / 45) 0 1
  let phase3 : ℝ := clampR (((t : ℝ) - 130) / 30) 0 1
  let uptimeTarget : ℝ := 99.2
  let energyKW : ℝ := 78.0
  let effPct : ℝ := 86.0
  let utilPct : ℝ := 72.0
  let riskPct : ℝ := 8.0
  let wobble : ℝ → ℝ := fun j =>
    Real.sin ((t : ℝ) / 8 * (j + 1)) * 0.6 + Real.sin ((t : ℝ) / 17 * (j + 2)) * 0.25
  let conf : ℝ → ℝ := fun base => jsRoundR (lerp base 100 phase3)
  let warm := phase1
  let stable := phase2
  let vc : Option ℝ × ℝ :=
    if k.key = "prod" then
      (some (lerp 0 (uptimeTarget + wobble 0) stable), jsRoundR (lerp 0 70 warm))
    else if k.key = "energy" then
      (some (lerp 0 (energyKW + wobble 1) stable), jsRoundR (lerp 0 75 warm))
    else if k.key = "eff" then
      (some (lerp 0 (effPct + wobble 2) stable), jsRoundR (lerp 0 70 warm))
    else if k.key = "util" then
      (some (lerp 0 (utilPct + wobble 3) stable), jsRoundR (lerp 0 72 warm))
    else if k.key = "risk" then
      (some (lerp 0 (riskPct + |wobble 4| * 0.7) stable), jsRoundR (lerp 0 65 warm))
    else (none, 0)
  let value : Option ℝ := if 0 < phase1 then vc.1 else none
  let confidence : ℝ := if 0 < phase1 then max vc.2 (conf vc.2) else 0
  let last : ℝ := k.value.getD (value.getD 0)
  let now : ℝ := value.getD last
  let delta := now - last
  let trend : Trend := if |delta| < 0.15 then .flat else if 0 < delta then .up else .down
  { k with value := value, confidence := confidence, trend := trend }

/-- The KPI projector: the whole `setKpis(prevKpis => prevKpis.map …)`. -/
noncomputable def kpiProject (t : Nat) (ks : List KPI) : List KPI :=
  ks.map (kpiUpdate t)

/-- Initial KPIs (the `useState` initializer). -/
noncomputable def initKpis : List KPI :=
  [ ⟨"prod", "System Uptime", some "%", none, some 99.0, .flat, 0⟩,
    ⟨"energy", "Energy Usage", some "kW", none, some 75, .flat, 0⟩,
    ⟨"eff", "Efficiency vs Curve", some "%", none, some 85, .flat, 0⟩,
    ⟨"util", "Load Utilization", some "%", none, some 70, .flat, 0⟩,
    ⟨"risk", "Maintenance Risk", some "%", none, some 10, .flat, 0⟩ ]

/-- The KPI list after the clock has advanced one second at a time from 0
to `t`. -/
noncomputable def kpisAt : Nat → List KPI
  | 0 => kpiProject 0 initKpis
  | n + 1 => kpiProject (n + 1) (kpisAt n)

/-! ## Deploy gate and full engine state -/

inductive DeployStage
  | draft | staging | prod
deriving DecidableEq, Repr

/-- The engine's state: the read-only snapshot the view layer consumes
(clock, agents, artifacts, bus events, KPIs, deploy stage and gate).
Presentational state (prompt text, selections, viewer overlay) is outside
the engine and not modelled. -/
structure EngineState where
  t : Nat
  running : Bool
  agents : List Agent
  artifacts : Artifacts
  busEvents : List BusEvent
  kpis : List KPI
  deployStage : DeployStage
  deployEnabled : Bool

/-- Initial engine state (the `useState` initializers). -/
noncomputable def engineInit : EngineState where
  t := 0
  running := true
  agents := initAgents
  artifacts := initArtifacts
  busEvents := []
  kpis := initKpis
  deployStage := .draft
  deployEnabled := false

/-- All the `t`-driven effects, run at the state's current clock value:
pause-at-end, the agent projector, the artifact emitter, the bus emitter,
the KPI projector, and deploy readiness (`t ≥ deployReady`). -/
noncomputable def applyEffects (s : EngineState) : EngineState :=
  { s with
    running := if duration ≤ s.t then false else s.running
    agents := agentProject s.t s.agents
    artifacts := artifactStep s.t s.artifacts
    busEvents := busStep s.t s.busEvents
    kpis := kpiProject s.t s.kpis
    deployEnabled := if deployReady ≤ s.t then true else s.deployEnabled }

/-- One clock tick: `setT(prev => prev >= duration ? duration : prev + 1)`
followed by all the `t`-driven effects at the new clock value. -/
noncomputable def engineTick (s : EngineState) : EngineState :=
  applyEffects { s with t := if duration ≤ s.t then duration else s.t + 1 }

/-- The engine state after the clock has advanced one second at a time
from 0 to `t` (effects also fire on mount, at `t = 0`). -/
noncomputable def engineAt : Nat → EngineState
  | 0 => applyEffects engineInit
  | n + 1 => engineTick (engineAt n)

/-- The `promote` action: Draft→Staging→Prod, gated on `deployEnabled`. -/
noncomputable def promote (s : EngineState) : EngineState :=
  if !s.deployEnabled then s
  else if s.deployStage = .draft then { s with deployStage := .staging }
  else if s.deployStage = .staging then { s with deployStage := .prod }
  else s

/-- The "Jump to Deploy" quick control: `setT(Math.max(t, 160))`, after
which all the `t`-driven effects fire at the new clock value. -/
noncomputable def jumpToDeploy (s : EngineState) : EngineState :=
  applyEffects { s with t := max s.t 160 }

/-- The "Jump to KPIs" quick control: `setT(Math.max(t, 120))`. -/
noncomputable def jumpToKpis (s : EngineState) : EngineState :=
  applyEffects { s with t := max s.t 120 }

/-- The "Back to Draft" action: `setDeployStage("Draft")`. -/
noncomputable def setStageDraft (s : EngineState) : EngineState :=
  { s with deployStage := .draft }

/-- The Pause/Play toggle: `setRunning(r => !r)`. -/
noncomputable def toggleRunning (s : EngineState) : EngineState :=
  { s with running := !s.running }

/-- The `resetDemo` action: every engine field is set back to its scripted
initial value (the source repeats the initializer literals; so does this
definition). -/
noncomputable def resetDemo (_s : EngineState) : EngineState where
  t := 0
  running := true
  agents :=
    [ ⟨"spec", "Spec Agent", .queued, 0, ["manifest"], []⟩,
      ⟨"topo", "Topology Agent", .queued, 0, ["manifest"], []⟩,
      ⟨"conn", "Connector Agent", .queued, 0, ["bindings"], []⟩,
      ⟨"der", "Derived Signal Agent", .queued, 0, ["bindings", "kpis"], []⟩,
      ⟨"kpi", "KPI Agent", .queued, 0, ["kpis"], []⟩,
      ⟨"view", "View Agent", .queued, 0, ["views"], []⟩,
      ⟨"val", "Validation Agent", .queued, 0, ["validation"], []⟩ ]
  artifacts :=
    { manifest := ⟨"manifest", "Twin Manifest", 0, 0, "No manifest yet.",
        [⟨.info, "— awaiting spec compilation —"⟩]⟩
      bindings := ⟨"bindings", "Data Bindings", 0, 0, "No bindings yet.",
        [⟨.info, "— awaiting connector mapping —"⟩]⟩
      kpis := ⟨"kpis", "KPIs Pack", 0, 0, "No KPIs yet.",
        [⟨.info, "— awaiting KPI definitions —"⟩]⟩
      views := ⟨"views", "Views / AR Labels", 0, 0, "No views yet.",
        [⟨.info, "— awaiting view generation —"⟩]⟩
      validation := ⟨"validation", "Validation Report", 0, 0, "Not validated.",
        [⟨.info, "— run validation to deploy —"⟩]⟩ }
  busEvents := []
  kpis :=
    [ ⟨"prod", "System Uptime", some "%", none, some 99.0, .flat, 0⟩,
      ⟨"energy", "Energy Usage", some "kW", none, some 75, .flat, 0⟩,
      ⟨"eff", "Efficiency vs Curve", some "%", none, some 85, .flat, 0⟩,
      ⟨"util", "Load Utilization", some "%", none, some 70, .flat, 0⟩,
      ⟨"risk", "Maintenance Risk", some "%", none, some 10, .flat, 0⟩ ]
  deployStage := .draft
  deployEnabled := false

/-- The states of the engine reachable through its command surface:
mounting, clock ticks, the two time jumps, reset, promote, the pause
toggle, and reverting the displayed stage to Draft. -/
inductive Reachable : EngineState → Prop
  | base : Reachable (applyEffects engineInit)
  | tick {s} : Reachable s → Reachable (engineTick s)
  | jumpDeploy {s} : Reachable s → Reachable (jumpToDeploy s)
  | jumpKpis {s} : Reachable s → Reachable (jumpToKpis s)
  | reset {s} : Reachable s → Reachable (resetDemo s)
  | promoteStep {s} : Reachable s → Reachable (promote s)
  | pauseToggle {s} : Reachable s → Reachable (toggleRunning s)
  | stageDraft {s} : Reachable s → Reachable (setStageDraft s)

/-! # Verified properties

Helper lemmas first, then one theorem per checked claim. -/

lemma clampQ_nonneg (x : ℚ) : 0 ≤ clampQ x 0 1 := le_max_left 0 _

lemma clampQ_le_one (x : ℚ) : clampQ x 0 1 ≤ 1 :=
  max_le zero_le_one (min_le_left 1 x)

lemma jsRoundQ_nonneg {q : ℚ} (h : 0 ≤ q) : 0 ≤ jsRoundQ q :=
  Int.le_floor.mpr (by push_cast; linarith)

lemma jsRoundQ_le_100 {q : ℚ} (h : q ≤ 100) : jsRoundQ q ≤ 100 := by
  have h2 : ⌊q + 1 / 2⌋ < (101 : ℤ) := Int.floor_lt.mpr (by push_cast; linarith)
  unfold jsRoundQ
  omega

lemma jsRoundQ_mono {q1 q2 : ℚ} (h : q1 ≤ q2) : jsRoundQ q1 ≤ jsRoundQ q2 :=
  Int.floor_le_floor (by linarith)

lemma stageProgress_nonneg (t s e : Nat) : 0 ≤ stageProgress t s e := by
  unfold stageProgress
  split
  · norm_num
  split
  · norm_num
  · exact jsRoundQ_nonneg (by have := clampQ_nonneg (((t : ℚ) - s) / ((e : ℚ) - s)); linarith)

lemma stageProgress_le_100 (t s e : Nat) : stageProgress t s e ≤ 100 := by
  unfold stageProgress
  split
  · norm_num
  split
  · norm_num
  · exact jsRoundQ_le_100 (by have := clampQ_le_one (((t : ℚ) - s) / ((e : ℚ) - s)); linarith)

lemma stageProgress_mono {s e : Nat} (hse : s < e) {t1 t2 : Nat} (h : t1 ≤ t2) :
    stageProgress t1 s e ≤ stageProgress t2 s e := by
  rcases lt_or_ge t2 s with h2s | h2s
  · unfold stageProgress
    rw [if_pos (lt_of_le_of_lt h h2s), if_pos h2s]
  · rcases lt_or_ge t1 s with h1s | h1s
    · have h0 : stageProgress t1 s e = 0 := by unfold stageProgress; rw [if_pos h1s]
      rw [h0]
      exact stageProgress_nonneg t2 s e
    · rcases lt_or_ge e t1 with he1 | he1
      · unfold stageProgress
        rw [if_neg (not_lt.mpr h1s), if_pos he1, if_neg (not_lt.mpr (le_trans h1s h)),
          if_pos (lt_of_lt_of_le he1 h)]
      · rcases lt_or_ge e t2 with he2 | he2
        · have h100 : stageProgress t2 s e = 100 := by
            unfold stageProgress
            rw [if_neg (not_lt.mpr (le_trans h1s h)), if_pos he2]
          rw [h100]
          exact stageProgress_le_100 t1 s e
        · unfold stageProgress
          rw [if_neg (not_lt.mpr h1s), if_neg (not_lt.mpr he1),
            if_neg (not_lt.mpr (le_trans h1s h)), if_neg (not_lt.mpr he2)]
          apply jsRoundQ_mono
          have hden : (0 : ℚ) < (e : ℚ) - s := by
            have : (s : ℚ) < e := by exact_mod_cast hse
            linarith
          have hdiv : ((t1 : ℚ) - s) / ((e : ℚ) - s) ≤ ((t2 : ℚ) - s) / ((e : ℚ) - s) := by
            apply (div_le_div_iff_of_pos_right hden).mpr
            have : (t1 : ℚ) ≤ t2 := by exact_mod_cast h
            linarith
          unfold clampQ
          exact mul_le_mul_of_nonneg_right
            (max_le_max le_rfl (min_le_min le_rfl hdiv)) (by norm_num)

lemma stageProgress_at_start {s e : Nat} (h : s < e) : stageProgress s s e = 0 := by
  unfold stageProgress
  rw [if_neg (lt_irrefl s), if_neg (not_lt.mpr h.le)]
  have h0 : ((s : ℚ) - s) / ((e : ℚ) - s) = 0 := by rw [sub_self, zero_div]
  rw [h0]
  have hc : clampQ 0 0 1 = 0 := by unfold clampQ; norm_num
  rw [hc, zero_mul, jsRoundQ, zero_add, Int.floor_eq_zero_iff]
  constructor <;> norm_num

lemma stageProgress_at_end {s e : Nat} (h : s < e) : stageProgress e s e = 100 := by
  unfold stageProgress
  rw [if_neg (not_lt.mpr h.le), if_neg (lt_irrefl e)]
  have hne : (e : ℚ) - s ≠ 0 := by
    have : (s : ℚ) < e := by exact_mod_cast h
    linarith
  have h1 : ((e : ℚ) - s) / ((e : ℚ) - s) = 1 := div_self hne
  rw [h1]
  have hc : clampQ 1 0 1 = 1 := by unfold clampQ; norm_num
  rw [hc, one_mul, jsRoundQ, Int.floor_eq_iff]
  constructor <;> norm_num

/-- Inside the window, `stageProgress` is an explicit natural division. -/
lemma stageProgress_eq_div {t s e : Nat} (hse : s < e) (h1 : s ≤ t) (h2 : t ≤ e) :
    stageProgress t s e = ((200 * (t - s) + (e - s)) / (2 * (e - s)) : ℕ) := by
  unfold stageProgress
  rw [if_neg (not_lt.mpr h1), if_neg (not_lt.mpr h2)]
  have hden : (0 : ℚ) < (e : ℚ) - s := by
    have : (s : ℚ) < e := by exact_mod_cast hse
    linarith
  have hq0 : 0 ≤ ((t : ℚ) - s) / ((e : ℚ) - s) := by
    apply div_nonneg _ hden.le
    have : (s : ℚ) ≤ t := by exact_mod_cast h1
    linarith
  have hq1 : ((t : ℚ) - s) / ((e : ℚ) - s) ≤ 1 := by
    rw [div_le_one hden]
    have : (t : ℚ) ≤ e := by exact_mod_cast h2
    linarith
  have hcl : clampQ (((t : ℚ) - s) / ((e : ℚ) - s)) 0 1 = ((t : ℚ) - s) / ((e : ℚ) - s) := by
    unfold clampQ
    rw [min_eq_right hq1, max_eq_right hq0]
  rw [hcl, jsRoundQ]
  have harg : ((t : ℚ) - s) / ((e : ℚ) - s) * 100 + 1 / 2
      = ((200 * (t - s) + (e - s) : ℕ) : ℚ) / ((2 * (e - s) : ℕ) : ℚ) := by
    push_cast [Nat.cast_sub h1, Nat.cast_sub hse.le]
    field_simp
    ring
  rw [harg, Rat.floor_natCast_div_natCast]
  exact_mod_cast rfl

/-- C7: for every fixed window `start < end`, `stageProgress` is monotonically
non-decreasing in `t` over `[0, duration]`, always lies in `[0, 100]`, equals
exactly 0 at `t = start`, and equals exactly 100 at `t = end`. -/
theorem stageProgress_spec (start e : Nat) (h : start < e) :
    (∀ t1 t2 : Nat, t1 ≤ t2 → t2 ≤ duration →
      stageProgress t1 start e ≤ stageProgress t2 start e)
    ∧ (∀ t : Nat, t ≤ duration →
      0 ≤ stageProgress t start e ∧ stageProgress t start e ≤ 100)
    ∧ stageProgress start start e = 0
    ∧ stageProgress e start e = 100 :=
  ⟨fun _ _ h12 _ => stageProgress_mono h h12,
   fun t _ => ⟨stageProgress_nonneg t start e, stageProgress_le_100 t start e⟩,
   stageProgress_at_start h, stageProgress_at_end h⟩

/-- Witness for C7: the connector window `[30, 74]` satisfies the hypothesis
`start < end`, and there `stageProgress` is exactly 0 at `t = start`. -/
theorem stageProgress_spec_witness : stageProgress connStart connStart connEnd = 0 :=
  (stageProgress_spec connStart connEnd (by decide)).2.2.1

/-! ## Artifact emitter lemmas (C1) -/

lemma artifactStep_noop {t : Nat} (h : t ∉ ([32, 74, 95, 120, 140, 160] : List Nat))
    (A : Artifacts) : artifactStep t A = A := by
  simp only [List.mem_cons, List.not_mem_nil, or_false, not_or] at h
  obtain ⟨h32, h74, h95, h120, h140, h160⟩ := h
  unfold artifactStep
  simp only [specEnd, connEnd, derEnd, kpiEnd, viewEnd, valEnd, if_neg h32, if_neg h74,
    if_neg h95, if_neg h120, if_neg h140, if_neg h160]

lemma artifactsAt_succ (n : Nat) : artifactsAt (n + 1) = artifactStep (n + 1) (artifactsAt n) :=
  rfl

lemma artifactStep_at_32 (A : Artifacts) :
    artifactStep 32 A =
      { A with manifest :=
        { A.manifest with
          version := A.manifest.version + 1
          lastUpdatedSec := 32
          summary := "CabinetCooling.EC2 with Fan_A/Fan_B, PLC gateway, sensors."
          diffLines :=
            [ ⟨.ok, "+ Assets: Fan_A, Fan_B, Cabinet_A, PLC_Gateway"⟩,
              ⟨.ok, "+ Relationships: Motor→Fan, Fan→Airflow→CabinetTemp"⟩,
              ⟨.info, "+ Defaults: variable_speed=true, reporting=monthly"⟩ ] } } := rfl

lemma artifactStep_at_74 (A : Artifacts) :
    artifactStep 74 A =
      { A with bindings :=
        { A.bindings with
          version := A.bindings.version + 1
          lastUpdatedSec := 74
          summary := "Mapped Modbus registers + MQTT faults; created rollups."
          diffLines :=
            [ ⟨.ok, "+ Bind: Fan_A.rpm ← Modbus HR:40021"⟩,
              ⟨.ok, "+ Bind: Fan_A.kW  ← Modbus HR:40031 (normalized)"⟩,
              ⟨.ok, "+ Bind: Cabinet.temp_C ← HR:40110"⟩,
              ⟨.info, "+ Subscribe: MQTT ebmpapst/cabinetA/faults/#"⟩ ] } } := rfl

lemma artifactStep_at_95 (A : Artifacts) :
    artifactStep 95 A =
      { A with bindings :=
        { A.bindings with
          version := A.bindings.version + 1
          lastUpdatedSec := 95
          summary := "Added derived airflow_est + unit normalization rules."
          diffLines :=
            [ ⟨.ok, "+ Derived: airflow_est ← f(RPM, curve_proxy)"⟩,
              ⟨.warn, "~ Unit rule: kW tags sometimes in W (auto-normalize)"⟩,
              ⟨.info, "+ Quality: flatline/spike detection enabled"⟩ ] } } := rfl

lemma artifactStep_at_120 (A : Artifacts) :
    artifactStep 120 A =
      { A with kpis :=
        { A.kpis with
          version := A.kpis.version + 1
          lastUpdatedSec := 120
          summary := "Energy, efficiency vs curve, utilization, maintenance risk (monthly)."
          diffLines :=
            [ ⟨.ok, "+ KPI: energy_kWh_month ← Σ(kW)*Δt"⟩,
              ⟨.ok, "+ KPI: efficiency_pct ← airflow_est / power (normalized)"⟩,
              ⟨.ok, "+ KPI: utilization_pct ← time_in_band / total"⟩,
              ⟨.info, "+ KPI: risk_pct ← variance(power)+fault_rate proxy"⟩ ] } } := rfl

lemma artifactStep_at_140 (A : Artifacts) :
    artifactStep 140 A =
      { A with views :=
        { A.views with
          version := A.views.version + 1
          lastUpdatedSec := 140
          summary := "Web 3D view + AR label overlays (RPM/kW/Status)."
          diffLines :=
            [ ⟨.ok, "+ View: Cabinet_A overview scene"⟩,
              ⟨.ok, "+ AR Label: Fan_A (RPM, kW, Status)"⟩,
              ⟨.ok, "+ AR Label: Fan_B (RPM, kW, Status)"⟩,
              ⟨.info, "+ Anchors: cabinet_faceplate, fan_housing"⟩ ] } } := rfl

lemma artifactStep_at_160 (A : Artifacts) :
    artifactStep 160 A =
      { A with validation :=
        { A.validation with
          version := A.validation.version + 1
          lastUpdatedSec := 160
          summary := "PASS: 0 errors, 2 warnings (unit normalization)."
          diffLines :=
            [ ⟨.ok, "✓ Schema: manifest/bindings/kpis/views"⟩,
              ⟨.ok, "✓ Dependencies: tags → derived → kpis → overlays"⟩,
              ⟨.warn, "⚠ Warning: kW tag unit inconsistent; normalized to kW"⟩,
              ⟨.warn, "⚠ Warning: vibration missing; risk uses proxy"⟩ ] } } := rfl

/-- C1: driving the clock one second at a time from 0 to 180, the artifact
store changes only at the six thresholds 32, 74, 95, 120, 140, 160; at each
threshold exactly one artifact is bumped — its version goes up by exactly 1,
its `lastUpdatedSec` is set to the current time, and its summary and diff
lines are replaced wholesale (manifest at 32; bindings at 74 and again at 95,
the derived-signal exception; kpis at 120; views at 140; validation at 160) —
while the other four artifacts are untouched. -/
theorem artifact_emission_schedule :
    artifactsAt 0 = initArtifacts
    ∧ (∀ t : Nat, t + 1 ≤ 180 → (t + 1) ∉ ([32, 74, 95, 120, 140, 160] : List Nat) →
        artifactsAt (t + 1) = artifactsAt t)
    ∧ ((artifactsAt 32).manifest.version = (artifactsAt 31).manifest.version + 1
      ∧ (artifactsAt 32).manifest.lastUpdatedSec = 32
      ∧ (artifactsAt 32).manifest.summary
          = "CabinetCooling.EC2 with Fan_A/Fan_B, PLC gateway, sensors."
      ∧ (artifactsAt 32).manifest.diffLines
          = [ ⟨.ok, "+ Assets: Fan_A, Fan_B, Cabinet_A, PLC_Gateway"⟩,
              ⟨.ok, "+ Relationships: Motor→Fan, Fan→Airflow→CabinetTemp"⟩,
              ⟨.info, "+ Defaults: variable_speed=true, reporting=monthly"⟩ ]
      ∧ (artifactsAt 32).bindings = (artifactsAt 31).bindings
      ∧ (artifactsAt 32).kpis = (artifactsAt 31).kpis
      ∧ (artifactsAt 32).views = (artifactsAt 31).views
      ∧ (artifactsAt 32).validation = (artifactsAt 31).validation)
    ∧ ((artifactsAt 74).bindings.version = (artifactsAt 73).bindings.version + 1
      ∧ (artifactsAt 74).bindings.lastUpdatedSec = 74
      ∧ (artifactsAt 74).bindings.summary
          = "Mapped Modbus registers + MQTT faults; created rollups."
      ∧ (artifactsAt 74).bindings.diffLines
          = [ ⟨.ok, "+ Bind: Fan_A.rpm ← Modbus HR:40021"⟩,
              ⟨.ok, "+ Bind: Fan_A.kW  ← Modbus HR:40031 (normalized)"⟩,
              ⟨.ok, "+ Bind: Cabinet.temp_C ← HR:40110"⟩,
              ⟨.info, "+ Subscribe: MQTT ebmpapst/cabinetA/faults/#"⟩ ]
      ∧ (artifactsAt 74).manifest = (artifactsAt 73).manifest
      ∧ (artifactsAt 74).kpis = (artifactsAt 73).kpis
      ∧ (artifactsAt 74).views = (artifactsAt 73).views
      ∧ (artifactsAt 74).validation = (artifactsAt 73).validation)
    ∧ ((artifactsAt 95).bindings.version = (artifactsAt 94).bindings.version + 1
      ∧ (artifactsAt 95).bindings.lastUpdatedSec = 95
      ∧ (artifactsAt 95).bindings.summary
          = "Added derived airflow_est + unit normalization rules."
      ∧ (artifactsAt 95).bindings.diffLines
          = [ ⟨.ok, "+ Derived: airflow_est ← f(RPM, curve_proxy)"⟩,
              ⟨.warn, "~ Unit rule: kW tags sometimes in W (auto-normalize)"⟩,
              ⟨.info, "+ Quality: flatline/spike detection enabled"⟩ ]
      ∧ (artifactsAt 95).manifest = (artifactsAt 94).manifest
      ∧ (artifactsAt 95).kpis = (artifactsAt 94).kpis
      ∧ (artifactsAt 95).views = (artifactsAt 94).views
      ∧ (artifactsAt 95).validation = (artifactsAt 94).validation)
    ∧ ((artifactsAt 120).kpis.version = (artifactsAt 119).kpis.version + 1
      ∧ (artifactsAt 120).kpis.lastUpdatedSec = 120
      ∧ (artifactsAt 120).kpis.summary
          = "Energy, efficiency vs curve, utilization, maintenance risk (monthly)."
      ∧ (artifactsAt 120).kpis.diffLines
          = [ ⟨.ok, "+ KPI: energy_kWh_month ← Σ(kW)*Δt"⟩,
              ⟨.ok, "+ KPI: efficiency_pct ← airflow_est / power (normalized)"⟩,
              ⟨.ok, "+ KPI: utilization_pct ← time_in_band / total"⟩,
              ⟨.info, "+ KPI: risk_pct ← variance(power)+fault_rate proxy"⟩ ]
      ∧ (artifactsAt 120).manifest = (artifactsAt 119).manifest
      ∧ (artifactsAt 120).bindings = (artifactsAt 119).bindings
      ∧ (artifactsAt 120).views = (artifactsAt 119).views
      ∧ (artifactsAt 120).validation = (artifactsAt 119).validation)
    ∧ ((artifactsAt 140).views.version = (artifactsAt 139).views.version + 1
      ∧ (artifactsAt 140).views.lastUpdatedSec = 140
      ∧ (artifactsAt 140).views.summary = "Web 3D view + AR label overlays (RPM/kW/Status)."
      ∧ (artifactsAt 140).views.diffLines
          = [ ⟨.ok, "+ View: Cabinet_A overview scene"⟩,
              ⟨.ok, "+ AR Label: Fan_A (RPM, kW, Status)"⟩,
              ⟨.ok, "+ AR Label: Fan_B (RPM, kW, Status)"⟩,
              ⟨.info, "+ Anchors: cabinet_faceplate, fan_housing"⟩ ]
      ∧ (artifactsAt 140).manifest = (artifactsAt 139).manifest
      ∧ (artifactsAt 140).bindings = (artifactsAt 139).bindings
      ∧ (artifactsAt 140).kpis = (artifactsAt 139).kpis
      ∧ (artifactsAt 140).validation = (artifactsAt 139).validation)
    ∧ ((artifactsAt 160).validation.version = (artifactsAt 159).validation.version + 1
      ∧ (artifactsAt 160).validation.lastUpdatedSec = 160
      ∧ (artifactsAt 160).validation.summary = "PASS: 0 errors, 2 warnings (unit normalization)."
      ∧ (artifactsAt 160).validation.diffLines
          = [ ⟨.ok, "✓ Schema: manifest/bindings/kpis/views"⟩,
              ⟨.ok, "✓ Dependencies: tags → derived → kpis → overlays"⟩,
              ⟨.warn, "⚠ Warning: kW tag unit inconsistent; normalized to kW"⟩,
              ⟨.warn, "⚠ Warning: vibration missing; risk uses proxy"⟩ ]
      ∧ (artifactsAt 160).manifest = (artifactsAt 159).manifest
      ∧ (artifactsAt 160).bindings = (artifactsAt 159).bindings
      ∧ (artifactsAt 160).kpis = (artifactsAt 159).kpis
      ∧ (artifactsAt 160).views = (artifactsAt 159).views) := by
  refine ⟨artifactStep_noop (by decide) initArtifacts, ?_, ?_, ?_, ?_, ?_, ?_, ?_⟩
  · intro t _ h2
    rw [artifactsAt_succ]
    exact artifactStep_noop h2 _
  · refine ⟨?_, ?_, ?_, ?_, ?_, ?_, ?_, ?_⟩ <;>
      rw [show artifactsAt 32 = artifactStep 32 (artifactsAt 31) from rfl, artifactStep_at_32]
  · refine ⟨?_, ?_, ?_, ?_, ?_, ?_, ?_, ?_⟩ <;>
      rw [show artifactsAt 74 = artifactStep 74 (artifactsAt 73) from rfl, artifactStep_at_74]
  · refine ⟨?_, ?_, ?_, ?_, ?_, ?_, ?_, ?_⟩ <;>
      rw [show artifactsAt 95 = artifactStep 95 (artifactsAt 94) from rfl, artifactStep_at_95]
  · refine ⟨?_, ?_, ?_, ?_, ?_, ?_, ?_, ?_⟩ <;>
      rw [show artifactsAt 120 = artifactStep 120 (artifactsAt 119) from rfl, artifactStep_at_120]
  · refine ⟨?_, ?_, ?_, ?_, ?_, ?_, ?_, ?_⟩ <;>
      rw [show artifactsAt 140 = artifactStep 140 (artifactsAt 139) from rfl, artifactStep_at_140]
  · refine ⟨?_, ?_, ?_, ?_, ?_, ?_, ?_, ?_⟩ <;>
      rw [show artifactsAt 160 = artifactStep 160 (artifactsAt 159) from rfl, artifactStep_at_160]

/-- Witness for C1: at `t = 17` (not a threshold) nothing changes. -/
theorem artifact_emission_schedule_witness : artifactsAt 17 = artifactsAt 16 :=
  artifact_emission_schedule.2.1 16 (by decide) (by decide)

/-! ## Bus event emitter lemmas (C3) -/

lemma busStep_noop {t : Nat}
    (h : t ∉ ([2, 8, 33, 38, 44, 52, 60, 68, 76, 82, 131, 148, 162] : List Nat))
    (prev : List BusEvent) : busStep t prev = prev := by
  simp only [List.mem_cons, List.not_mem_nil, or_false, not_or] at h
  obtain ⟨h1, h2, h3, h4, h5, h6, h7, h8, h9, h10, h11, h12, h13⟩ := h
  unfold busStep
  simp only [if_neg h1, if_neg h2, if_neg h3, if_neg h4, if_neg h5, if_neg h6, if_neg h7,
    if_neg h8, if_neg h9, if_neg h10, if_neg h11, if_neg h12, if_neg h13]

set_option maxRecDepth 4096 in
/-- C3 amended: the bus effect appends exactly one synthetic event at each of
THIRTEEN fixed literal timestamps (2, 8, 33, 38, 44, 52, 60, 68, 76, 82, 131,
148, 162) — not fourteen — the first at `t = 2` with message
"Workspace created: ebm-papst/cabinetA" and the last at `t = 162`, appends no
bus event at any other time, and `pushBus` always caps the sequence at 70. -/
theorem bus_emission_schedule :
    ((List.range 181).filter (fun t => !(busStep t []).isEmpty))
      = [2, 8, 33, 38, 44, 52, 60, 68, 76, 82, 131, 148, 162]
    ∧ (∀ (t : Nat) (prev : List BusEvent),
        t ∉ ([2, 8, 33, 38, 44, 52, 60, 68, 76, 82, 131, 148, 162] : List Nat) →
        busStep t prev = prev)
    ∧ (∀ (prev : List BusEvent) (t : Nat),
        t ∈ ([2, 8, 33, 38, 44, 52, 60, 68, 76, 82, 131, 148, 162] : List Nat) →
        ∃ e, busStep t prev = pushBus e prev)
    ∧ busAt 162 =
      [ ⟨2, .timescaleDB, .info, "Workspace created: ebm-papst/cabinetA"⟩,
        ⟨8, .timescaleDB, .ok, "Twin PR branch: draft/v1 created"⟩,
        ⟨33, .modbusTCP, .info, "Connecting to PLC gateway 10.0.2.31:502"⟩,
        ⟨38, .modbusTCP, .ok, "Handshake OK. Reading holding registers…"⟩,
        ⟨44, .modbusTCP, .info, "Discovered tags: RPM_A, RPM_B, kW_A, kW_B, Temp_Cab"⟩,
        ⟨52, .mqtt, .info, "Subscribing: ebmpapst/cabinetA/faults/#"⟩,
        ⟨60, .mqtt, .ok, "Live faults stream online (no active faults)"⟩,
        ⟨68, .timescaleDB, .ok, "Ingest pipeline started (1s sample → 1m rollup)"⟩,
        ⟨76, .timescaleDB, .warn, "Unit check: kW_A appears in W → normalizing"⟩,
        ⟨82, .timescaleDB, .ok, "Derived signal: airflow_est computed from RPM + curve proxy"⟩,
        ⟨131, .timescaleDB, .info, "Running validation suite: bindings + KPI deps + view labels"⟩,
        ⟨148, .timescaleDB, .ok, "Validation passed (0 errors, 2 warnings)"⟩,
        ⟨162, .timescaleDB, .ok, "Ready to deploy: staging candidate v1.0"⟩ ]
    ∧ (∀ (prev : List BusEvent) (e : BusEvent),
        (pushBus e prev).length = min (prev.length + 1) 70) := by
  refine ⟨by decide, ?_, ?_, by decide, ?_⟩
  · intro t prev h
    exact busStep_noop h prev
  · intro prev t ht
    simp only [List.mem_cons, List.not_mem_nil, or_false] at ht
    rcases ht with rfl | rfl | rfl | rfl | rfl | rfl | rfl | rfl | rfl | rfl | rfl | rfl | rfl <;>
      exact ⟨_, rfl⟩
  · intro prev e
    simp only [pushBus, List.length_drop, List.length_append, List.length_cons,
      List.length_nil]
    omega

set_option maxRecDepth 4096 in
/-- Counterexample for C3 as frozen: the number of clock values in `[0, 180]`
at which the bus effect appends an event is 13, not fourteen. -/
theorem bus_emission_not_fourteen :
    ((List.range 181).filter (fun t => !(busStep t []).isEmpty)).length = 13
    ∧ ((List.range 181).filter (fun t => !(busStep t []).isEmpty)).length ≠ 14 := by
  decide

/-! ## Agent log schedule lemmas (C4) -/

set_option maxRecDepth 4096 in
/-- C4 amended: only five of the seven agents have hardcoded log milestones —
spec, conn, kpi and view have exactly four each, val has exactly THREE, and
topo and der have none; a log line is appended exactly at those milestones;
the last milestones of spec, conn, kpi and view produce "… compiled (draft
v1)" completion messages but val's last milestone (t = 160) produces "Ready
for staging deploy"; and each agent's log list is capped to the most recent
20 entries. -/
theorem agent_log_schedule :
    ((List.range 181).filter (fun t => shouldLog "spec" t) = [10, 18, 26, 32]
      ∧ (List.range 181).filter (fun t => shouldLog "conn" t) = [40, 52, 68, 74]
      ∧ (List.range 181).filter (fun t => shouldLog "kpi" t) = [76, 90, 108, 120]
      ∧ (List.range 181).filter (fun t => shouldLog "view" t) = [104, 118, 132, 140]
      ∧ (List.range 181).filter (fun t => shouldLog "val" t) = [136, 148, 160]
      ∧ (List.range 181).filter (fun t => shouldLog "topo" t) = []
      ∧ (List.range 181).filter (fun t => shouldLog "der" t) = [])
    ∧ (∀ (t : Nat) (a : Agent), shouldLog a.id t = false → (agentUpdate t a).logs = a.logs)
    ∧ (∀ (t : Nat) (a : Agent), shouldLog a.id t = true →
        (agentUpdate t a).logs = appendLog a.logs (formatSec t ++ " • " ++ logLine a.id t))
    ∧ (logLine "spec" 32 = "Manifest compiled (draft v1)"
      ∧ logLine "conn" 74 = "Bindings compiled (draft v1)"
      ∧ logLine "kpi" 120 = "KPI pack compiled (draft v1)"
      ∧ logLine "view" 140 = "Views compiled (draft v1)"
      ∧ logLine "val" 160 = "Ready for staging deploy")
    ∧ (∀ (logs : List String) (line : String), (appendLog logs line).length ≤ 20) := by
  refine ⟨by decide, ?_, ?_, by decide, ?_⟩
  · intro t a h
    simp [agentUpdate, h]
  · intro t a h
    simp [agentUpdate, h]
  · intro logs line
    simp only [appendLog, List.length_drop, List.length_append, List.length_cons,
      List.length_nil]
    omega

set_option maxRecDepth 4096 in
/-- Counterexample for C4 as frozen: the val agent has three milestone
timestamps, not four; the topo agent has none; and val's last milestone
message is "Ready for staging deploy", not a "compiled (draft v1)" message. -/
theorem agent_log_schedule_cex :
    ((List.range 181).filter (fun t => shouldLog "val" t)).length = 3
    ∧ ((List.range 181).filter (fun t => shouldLog "val" t)).length ≠ 4
    ∧ ((List.range 181).filter (fun t => shouldLog "topo" t)).length ≠ 4
    ∧ logLine "val" 160 = "Ready for staging deploy" := by
  decide

/-! ## Agent projector idempotence (C5) -/

/-- Every timestamp at which some agent's `shouldLog` can fire. -/
def logMilestones : List Nat :=
  [10, 18, 26, 32, 40, 52, 68, 74, 76, 90, 108, 120, 104, 118, 132, 140, 136, 148, 160]

lemma contains_mem {l : List Nat} {t : Nat} (h : l.contains t = true) : t ∈ l := by
  obtain ⟨x, hx, hbeq⟩ := List.contains_iff_exists_mem_beq.mp h
  exact (eq_of_beq hbeq) ▸ hx

lemma shouldLog_mem {id : String} {t : Nat} (h : shouldLog id t = true) : t ∈ logMilestones := by
  simp only [shouldLog, Bool.or_eq_true, Bool.and_eq_true] at h
  rcases h with ((((⟨-, hc⟩ | ⟨-, hc⟩) | ⟨-, hc⟩) | ⟨-, hc⟩) | ⟨-, hc⟩) <;>
    · have hm := contains_mem hc
      fin_cases hm <;> decide

lemma shouldLog_false_of_not_mem {t : Nat} (h : t ∉ logMilestones) (id : String) :
    shouldLog id t = false := by
  cases hsl : shouldLog id t with
  | false => rfl
  | true => exact absurd (shouldLog_mem hsl) h

lemma agentUpdate_idem {t : Nat} {a : Agent} (h : shouldLog a.id t = false) :
    agentUpdate t (agentUpdate t a) = agentUpdate t a := by
  cases a with
  | mk id name status progress outs logs => simp [agentUpdate, h]

/-- C5 amended: the agent projector is idempotent at every `t` that is not
one of the milestone constants; at a milestone `t` a second application at
the same time appends the milestone log line again (see the counterexample). -/
theorem agentProject_idempotent (t : Nat) (as : List Agent) (h : t ∉ logMilestones) :
    agentProject t (agentProject t as) = agentProject t as := by
  unfold agentProject
  rw [List.map_map]
  exact List.map_congr_left fun a _ => agentUpdate_idem (shouldLog_false_of_not_mem h a.id)

/-- Witness for C5: at `t = 0` (not a milestone) re-running the projector on
the freshly projected initial agents changes nothing. -/
theorem agentProject_idempotent_witness :
    agentProject 0 (agentProject 0 initAgents) = agentProject 0 initAgents :=
  agentProject_idempotent 0 initAgents (by decide)

/-- Counterexample for C5 as frozen: at milestone `t = 10` a second
application of the projector duplicates the spec agent's log line. -/
theorem agentProject_not_idempotent :
    agentProject 10 (agentProject 10 initAgents) ≠ agentProject 10 initAgents :=
  fun h => absurd (congrArg (List.map Agent.logs) h) (by decide)

/-! ## Connector scenario lemmas (C6) -/

lemma agentsAt_ids (n : Nat) :
    (agentsAt n).map Agent.id = ["spec", "topo", "conn", "der", "kpi", "view", "val"] := by
  induction n with
  | zero => rfl
  | succ n ih =>
    show List.map Agent.id (List.map (agentUpdate (n + 1)) (agentsAt n)) = _
    rw [List.map_map]
    exact ih

lemma agentsAt_proj (n : Nat) :
    (agentsAt n).map (fun a => (a.id, a.progress, a.status))
      = List.map (fun id => (id, progressFor n id, statusFor n id))
          ["spec", "topo", "conn", "der", "kpi", "view", "val"] := by
  cases n with
  | zero => rfl
  | succ n =>
    show List.map _ (List.map (agentUpdate (n + 1)) (agentsAt n)) = _
    rw [List.map_map]
    have hcomp : ((fun a : Agent => (a.id, a.progress, a.status)) ∘ agentUpdate (n + 1))
        = (fun id => (id, progressFor (n + 1) id, statusFor (n + 1) id)) ∘ Agent.id := rfl
    rw [hcomp, ← List.map_map, agentsAt_ids n]

lemma sp_topo_33 : stageProgress 33 topoStart topoEnd = 71 := by
  rw [stageProgress_eq_div (by decide) (by decide) (by decide)]
  decide

lemma sp_conn_33 : stageProgress 33 connStart connEnd = 7 := by
  rw [stageProgress_eq_div (by decide) (by decide) (by decide)]
  decide

lemma progressFor_topo_33 : progressFor 33 "topo" = 71 := by
  show stageProgress 33 topoStart topoEnd = 71
  exact sp_topo_33

lemma progressFor_conn_33 : progressFor 33 "conn" = 7 := by
  show stageProgress 33 connStart connEnd = 7
  exact sp_conn_33

lemma statusFor_topo_33 : statusFor 33 "topo" = .running := by
  show computeStatus 33 (stageProgress 33 topoStart topoEnd) topoStart topoEnd = .running
  rw [sp_topo_33]
  decide

lemma statusFor_conn_33 : statusFor 33 "conn" = .planning := by
  show computeStatus 33 (stageProgress 33 connStart connEnd) connStart connEnd = .planning
  rw [sp_conn_33]
  decide

lemma agentsAt_33_proj :
    (agentsAt 33).map (fun a => (a.id, a.progress, a.status))
      = [("spec", (100 : Int), AgentStatus.done), ("topo", 71, .running),
         ("conn", 7, .planning), ("der", 0, .queued), ("kpi", 0, .queued),
         ("view", 0, .queued), ("val", 0, .queued)] := by
  rw [agentsAt_proj 33]
  simp only [List.map]
  rw [progressFor_topo_33, statusFor_topo_33, progressFor_conn_33, statusFor_conn_33]
  rfl

/-- C6: after driving the clock one second at a time from 0 to 33, the
Connector agent (window `[30, 74]`) has progress `round(100·3/44) = 7` and,
by the literal 20% Planning/Running cutoff, status exactly `Planning`. -/
theorem connector_agent_at_t33 :
    ((agentsAt 33).find? (fun a => a.id == "conn")).map (fun a => (a.id, a.progress, a.status))
      = some ("conn", 7, AgentStatus.planning) := by
  have h := List.find?_map (p := fun x : String × Int × AgentStatus => x.1 == "conn")
    (fun a : Agent => (a.id, a.progress, a.status)) (agentsAt 33)
  rw [agentsAt_33_proj] at h
  have h2 : List.find? (fun x : String × Int × AgentStatus => x.1 == "conn")
      [("spec", (100 : Int), AgentStatus.done), ("topo", 71, .running),
       ("conn", 7, .planning), ("der", 0, .queued), ("kpi", 0, .queued),
       ("view", 0, .queued), ("val", 0, .queued)]
      = some ("conn", 7, .planning) := by decide
  exact h.symm.trans h2

/-! ## KPI projector lemmas (C2) -/

lemma clampR_pos_iff {x : ℝ} : 0 < clampR x 0 1 ↔ 0 < x := by
  unfold clampR
  rw [lt_max_iff]
  simp only [lt_irrefl, false_or, lt_min_iff, zero_lt_one, true_and]

lemma phase1_pos_iff (t : Nat) : (0 : ℝ) < clampR (((t : ℝ) - 55) / 40) 0 1 ↔ 55 < t := by
  rw [clampR_pos_iff, lt_div_iff₀ (by norm_num : (0 : ℝ) < 40), zero_mul, sub_pos]
  exact_mod_cast Iff.rfl

lemma kpiUpdate_value_of_le {t : Nat} (h : t ≤ 55) (k : KPI) :
    (kpiUpdate t k).value = none ∧ (kpiUpdate t k).confidence = 0 := by
  have hnp : ¬ (0 : ℝ) < clampR (((t : ℝ) - 55) / 40) 0 1 := by
    rw [phase1_pos_iff]
    omega
  constructor <;> simp [kpiUpdate, hnp]

lemma kpiUpdate_value_of_gt {t : Nat} (h : 55 < t) {k : KPI}
    (hk : k.key ∈ (["prod", "energy", "eff", "util", "risk"] : List String)) :
    (kpiUpdate t k).value ≠ none := by
  have hp : (0 : ℝ) < clampR (((t : ℝ) - 55) / 40) 0 1 := (phase1_pos_iff t).mpr h
  simp only [List.mem_cons, List.not_mem_nil, or_false] at hk
  rcases hk with hk | hk | hk | hk | hk <;> simp [kpiUpdate, hk, hp]

lemma kpisAt_keys (n : Nat) :
    (kpisAt n).map KPI.key = ["prod", "energy", "eff", "util", "risk"] := by
  induction n with
  | zero => rfl
  | succ n ih =>
    show List.map KPI.key (List.map (kpiUpdate (n + 1)) (kpisAt n)) = _
    rw [List.map_map]
    exact ih

lemma kpisAt_shape (n : Nat) (k : KPI) (hk : k ∈ kpisAt n) :
    ∃ k', k'.key ∈ (["prod", "energy", "eff", "util", "risk"] : List String)
      ∧ k = kpiUpdate n k' := by
  cases n with
  | zero =>
    obtain ⟨k', hk', rfl⟩ := List.mem_map.mp hk
    refine ⟨k', ?_, rfl⟩
    simp only [initKpis, List.mem_cons, List.not_mem_nil, or_false] at hk'
    rcases hk' with rfl | rfl | rfl | rfl | rfl <;> decide
  | succ n =>
    obtain ⟨k', hk', rfl⟩ := List.mem_map.mp hk
    refine ⟨k', ?_, rfl⟩
    have hmem : k'.key ∈ (kpisAt n).map KPI.key := List.mem_map_of_mem KPI.key hk'
    rw [kpisAt_keys n] at hmem
    exact hmem

lemma kpisAt_null {n : Nat} (hn : n ≤ 55) : ∀ k ∈ kpisAt n, k.value = none ∧ k.confidence = 0 := by
  intro k hk
  obtain ⟨k', -, rfl⟩ := kpisAt_shape n k hk
  exact kpiUpdate_value_of_le hn k'

lemma kpisAt_nonnull {n : Nat} (hn : 55 < n) : ∀ k ∈ kpisAt n, k.value ≠ none := by
  intro k hk
  obtain ⟨k', hk', rfl⟩ := kpisAt_shape n k hk
  exact kpiUpdate_value_of_gt hn hk'

/-- C2 amended: driving the clock one second at a time from 0, every KPI's
value is null for all `t ≤ 55` — including `t = 55`, since the data-arrival
weight `clamp((t-55)/40, 0, 1)` is still 0 there — and non-null for all
`t > 55`; confidence is 0 whenever the value is null. -/
theorem kpi_value_nullability (t : Nat) (k : KPI) (hk : k ∈ kpisAt t) :
    (t ≤ 55 → k.value = none ∧ k.confidence = 0)
    ∧ (55 < t → k.value ≠ none)
    ∧ (k.value = none → k.confidence = 0) := by
  refine ⟨fun h => kpisAt_null h k hk, fun h => kpisAt_nonnull h k hk, fun hv => ?_⟩
  rcases le_or_lt t 55 with h | h
  · exact (kpisAt_null h k hk).2
  · exact absurd hv (kpisAt_nonnull h k hk)

/-- Witness for C2: the uptime KPI as projected at `t = 0` is a member of the
trajectory state at time 0, and there its value is null with confidence 0. -/
theorem kpi_value_nullability_witness :
    ((0 : Nat) ≤ 55 →
      (kpiUpdate 0 ⟨"prod", "System Uptime", some "%", none, some 99.0, .flat, 0⟩).value = none
      ∧ (kpiUpdate 0 ⟨"prod", "System Uptime", some "%", none, some 99.0, .flat, 0⟩).confidence = 0)
    ∧ ((55 : Nat) < 0 →
      (kpiUpdate 0 ⟨"prod", "System Uptime", some "%", none, some 99.0, .flat, 0⟩).value ≠ none)
    ∧ ((kpiUpdate 0 ⟨"prod", "System Uptime", some "%", none, some 99.0, .flat, 0⟩).value = none →
      (kpiUpdate 0 ⟨"prod", "System Uptime", some "%", none, some 99.0, .flat, 0⟩).confidence = 0) := by
  have hmem : kpiUpdate 0 (⟨"prod", "System Uptime", some "%", none, some 99.0, .flat, 0⟩ : KPI)
      ∈ kpisAt 0 :=
    List.mem_map_of_mem (kpiUpdate 0) (by simp [initKpis])
  exact kpi_value_nullability 0 _ hmem

/-- Counterexample for C2 as frozen: at `t = 55` (which the claim includes in
"t ≥ 55") it is not the case that every KPI's value is non-null — the
projector still returns null for every KPI at `t = 55`. -/
theorem kpi_null_at_55 : ¬ (∀ k ∈ kpisAt 55, k.value ≠ none) := by
  intro hall
  have hkeys := kpisAt_keys 55
  have hne : kpisAt 55 ≠ [] := by
    intro h0
    rw [h0] at hkeys
    simp at hkeys
  obtain ⟨k, hk⟩ := List.exists_mem_of_ne_nil _ hne
  exact hall k hk (kpisAt_null (le_refl 55) k hk).1

/-! ## Deploy gate and engine trajectory lemmas (C8) -/

lemma applyEffects_t (s : EngineState) : (applyEffects s).t = s.t := rfl

lemma applyEffects_deployEnabled (s : EngineState) :
    (applyEffects s).deployEnabled = if deployReady ≤ s.t then true else s.deployEnabled := rfl

lemma applyEffects_deployStage (s : EngineState) :
    (applyEffects s).deployStage = s.deployStage := rfl

lemma engineAt_t (n : Nat) : (engineAt n).t = min n 180 := by
  induction n with
  | zero => rfl
  | succ n ih =>
    show (applyEffects { engineAt n with
      t := if duration ≤ (engineAt n).t then duration else (engineAt n).t + 1 }).t = _
    rw [applyEffects_t]
    simp only [duration]
    rw [ih]
    rcases le_or_lt 180 n with h | h
    · rw [if_pos (by omega : 180 ≤ min n 180)]
      omega
    · rw [if_neg (by omega : ¬ 180 ≤ min n 180)]
      omega

lemma engineAt_deployStage (n : Nat) : (engineAt n).deployStage = .draft := by
  induction n with
  | zero => rfl
  | succ n ih =>
    show (applyEffects { engineAt n with
      t := if duration ≤ (engineAt n).t then duration else (engineAt n).t + 1 }).deployStage = _
    rw [applyEffects_deployStage]
    exact ih

lemma engineAt_deployEnabled (n : Nat) (hn : n ≤ 180) :
    (engineAt n).deployEnabled = decide (160 ≤ n) := by
  induction n with
  | zero => rfl
  | succ n ih =>
    show (applyEffects { engineAt n with
      t := if duration ≤ (engineAt n).t then duration else (engineAt n).t + 1 }).deployEnabled = _
    rw [applyEffects_deployEnabled]
    simp only [duration, deployReady, engineAt_t n]
    have hmin : min n 180 = n := by omega
    rw [hmin, if_neg (by omega : ¬ 180 ≤ n)]
    rcases le_or_lt 160 (n + 1) with h160 | h160
    · rw [if_pos h160, decide_eq_true h160]
    · rw [if_neg (by omega : ¬ 160 ≤ n + 1), ih (by omega)]
      exact decide_eq_decide.mpr (by omega)

lemma promote_of_disabled {s : EngineState} (he : s.deployEnabled = false) : promote s = s := by
  unfold promote
  rw [he]
  rfl

lemma promote_of_enabled_draft {s : EngineState} (he : s.deployEnabled = true)
    (hs : s.deployStage = .draft) : promote s = { s with deployStage := .staging } := by
  unfold promote
  rw [he, hs]
  rfl

lemma promote_of_enabled_staging {s : EngineState} (he : s.deployEnabled = true)
    (hs : s.deployStage = .staging) : promote s = { s with deployStage := .prod } := by
  unfold promote
  rw [he, hs]
  rfl

lemma promote_of_prod {s : EngineState} (hs : s.deployStage = .prod) : promote s = s := by
  unfold promote
  rw [hs]
  cases h : s.deployEnabled <;> rfl

lemma promote_chain {s : EngineState} (he : s.deployEnabled = true)
    (hs : s.deployStage = .draft) :
    (promote s).deployStage = .staging
    ∧ (promote (promote s)).deployStage = .prod
    ∧ promote (promote (promote s)) = promote (promote s) := by
  have hp1 : promote s = { s with deployStage := .staging } :=
    promote_of_enabled_draft he hs
  have he2 : (promote s).deployEnabled = true := by
    rw [hp1]
    exact he
  have hs2 : (promote s).deployStage = .staging := by rw [hp1]
  have hp2 : promote (promote s) = { promote s with deployStage := .prod } :=
    promote_of_enabled_staging he2 hs2
  have hs3 : (promote (promote s)).deployStage = .prod := by rw [hp2]
  exact ⟨hs2, hs3, promote_of_prod hs3⟩

/-- C8: `promote` is a no-op on EVERY state in which the gate is disabled or
the stage is Production, and on every enabled state it transitions
Draft→Staging and Staging→Production; `deployEnabled` is false for all
`t < 160` and true for all `t ≥ 160` under second-by-second ticking; so on
the fresh engine `promote` is a no-op, and at `t = 170` two successive
`promote` calls take the stage from Draft to Staging to Production, while a
third call is a no-op. -/
theorem deploy_gate_spec :
    (∀ t : Nat, t ≤ 180 → (engineAt t).deployEnabled = decide (160 ≤ t))
    ∧ (∀ s : EngineState, s.deployEnabled = false → promote s = s)
    ∧ (∀ s : EngineState, s.deployStage = .prod → promote s = s)
    ∧ (∀ s : EngineState, s.deployEnabled = true → s.deployStage = .draft →
        promote s = { s with deployStage := .staging })
    ∧ (∀ s : EngineState, s.deployEnabled = true → s.deployStage = .staging →
        promote s = { s with deployStage := .prod })
    ∧ promote engineInit = engineInit
    ∧ (engineAt 170).deployStage = .draft
    ∧ (engineAt 170).deployEnabled = true
    ∧ (promote (engineAt 170)).deployStage = .staging
    ∧ (promote (promote (engineAt 170))).deployStage = .prod
    ∧ promote (promote (promote (engineAt 170))) = promote (promote (engineAt 170)) := by
  have hen : (engineAt 170).deployEnabled = true := by
    rw [engineAt_deployEnabled 170 (by omega)]
    decide
  have hst : (engineAt 170).deployStage = .draft := engineAt_deployStage 170
  obtain ⟨h1, h2, h3⟩ := promote_chain hen hst
  exact ⟨engineAt_deployEnabled, fun _ he => promote_of_disabled he,
    fun _ hs => promote_of_prod hs, fun _ he hs => promote_of_enabled_draft he hs,
    fun _ he hs => promote_of_enabled_staging he hs, promote_of_disabled rfl,
    hst, hen, h1, h2, h3⟩

/-- Witness for C8: at `t = 3` of the ticking run the deploy gate is still
disabled, as `decide (160 ≤ 3)` says. -/
theorem deploy_gate_spec_witness : (engineAt 3).deployEnabled = decide (160 ≤ 3) :=
  deploy_gate_spec.1 3 (by omega)

/-! ## Reset (C9) -/

/-- C9: `resetDemo` maps EVERY prior engine state — reachable or not — to the
`t = 0` baseline `engineInit`: clock 0 (and running), all 7 agents Queued with
progress 0 and empty logs, all 5 artifacts at version 0 with their initial
summaries, no bus events, all 5 KPIs with null value, confidence 0 and flat
trend, deploy stage Draft, and the deploy gate disabled. -/
theorem reset_restores_baseline :
    (∀ s : EngineState, resetDemo s = engineInit)
    ∧ engineInit.t = 0
    ∧ engineInit.running = true
    ∧ (∀ a ∈ engineInit.agents, a.status = .queued ∧ a.progress = 0 ∧ a.logs = [])
    ∧ engineInit.agents.length = 7
    ∧ (engineInit.artifacts.manifest.version = 0
      ∧ engineInit.artifacts.bindings.version = 0
      ∧ engineInit.artifacts.kpis.version = 0
      ∧ engineInit.artifacts.views.version = 0
      ∧ engineInit.artifacts.validation.version = 0
      ∧ engineInit.artifacts.manifest.summary = "No manifest yet."
      ∧ engineInit.artifacts.bindings.summary = "No bindings yet."
      ∧ engineInit.artifacts.kpis.summary = "No KPIs yet."
      ∧ engineInit.artifacts.views.summary = "No views yet."
      ∧ engineInit.artifacts.validation.summary = "Not validated.")
    ∧ engineInit.busEvents = []
    ∧ (∀ k ∈ engineInit.kpis, k.value = none ∧ k.confidence = 0 ∧ k.trend = .flat)
    ∧ engineInit.kpis.length = 5
    ∧ engineInit.deployStage = .draft
    ∧ engineInit.deployEnabled = false := by
  refine ⟨fun _ => rfl, rfl, rfl, ?_, rfl, ⟨rfl, rfl, rfl, rfl, rfl, rfl, rfl, rfl, rfl, rfl⟩,
    rfl, ?_, rfl, rfl, rfl⟩
  · intro a ha
    simp only [engineInit, initAgents, List.mem_cons, List.not_mem_nil, or_false] at ha
    rcases ha with rfl | rfl | rfl | rfl | rfl | rfl | rfl <;> exact ⟨rfl, rfl, rfl⟩
  · intro k hk
    simp only [engineInit, initKpis, List.mem_cons, List.not_mem_nil, or_false] at hk
    rcases hk with rfl | rfl | rfl | rfl | rfl <;> exact ⟨rfl, rfl, rfl⟩

/-! ## No agent ever fails (C10) -/

lemma computeStatus_ne_failed (t : Nat) (p : Int) (s e : Nat) :
    computeStatus t p s e ≠ .failed := by
  unfold computeStatus
  split_ifs <;> simp

lemma statusFor_ne_failed (t : Nat) (id : String) : statusFor t id ≠ .failed := by
  unfold statusFor
  split_ifs <;> first | apply computeStatus_ne_failed | simp

lemma agentProject_status_ne_failed (t : Nat) (as : List Agent) :
    ∀ a ∈ agentProject t as, a.status ≠ .failed := by
  intro a ha
  obtain ⟨a', -, rfl⟩ := List.mem_map.mp ha
  show statusFor t a'.id ≠ .failed
  exact statusFor_ne_failed t a'.id

lemma applyEffects_agents (s : EngineState) :
    (applyEffects s).agents = agentProject s.t s.agents := rfl

lemma promote_agents (s : EngineState) : (promote s).agents = s.agents := by
  unfold promote
  split_ifs <;> rfl

/-- C10: although `Failed` is a member of the agent status type, no reachable
engine state — through mounting, ticks, time jumps, reset, promote, pause or
stage changes — ever holds an agent whose status is `Failed`. -/
theorem no_agent_failed (s : EngineState) (hs : Reachable s) :
    ∀ a ∈ s.agents, a.status ≠ .failed := by
  induction hs with
  | base => exact agentProject_status_ne_failed _ _
  | tick _ _ => exact agentProject_status_ne_failed _ _
  | jumpDeploy _ _ => exact agentProject_status_ne_failed _ _
  | jumpKpis _ _ => exact agentProject_status_ne_failed _ _
  | reset _ _ =>
    intro a ha
    simp only [resetDemo, List.mem_cons, List.not_mem_nil, or_false] at ha
    rcases ha with rfl | rfl | rfl | rfl | rfl | rfl | rfl <;> decide
  | promoteStep _ ih =>
    intro a ha
    rw [promote_agents] at ha
    exact ih a ha
  | pauseToggle _ ih => exact ih
  | stageDraft _ ih => exact ih

/-- Witness for C10: the engine state right after a reset is reachable, and
its spec agent (status Queued) is indeed not Failed. -/
theorem no_agent_failed_witness :
    (⟨"spec", "Spec Agent", .queued, 0, ["manifest"], []⟩ : Agent).status ≠ .failed :=
  no_agent_failed (resetDemo (applyEffects engineInit))
    (Reachable.reset Reachable.base) _ (by simp [resetDemo])
